import Mathlib

/-!
Verification of the PyTmxTest map/collision core.

This file shallowly embeds the parts of the repository that the
claims of the specification concern:

* `tmx_explorer/map/collision.py` — `CollisionMap` (flag storage,
  bounds behaviour, pixel→tile conversion, height spanning,
  bounding-box movement query);
* `tmx_explorer/map/structure.py` — `Map3DStructure` (layer
  extraction with qualified names, level extraction from layer
  properties, `_load_layers`, `_build_collision_map`);
* `tmx_manager.py` — property values as carried on layers and tiles;
* `tmx_explorer/app.py` — the render-depth formula of
  `collect_visible_tiles_ordered`.

Real numbers of the Python source (floats) are embedded as rationals;
Python `int()` truncation and `//` floor division are modelled
explicitly.  Fallible code (`int(value, 0)` on a malformed string)
is embedded with `Except`.
-/

namespace PyTmx

/-- Python `int(q)` applied to a float: truncation toward zero
(`int(2.9) = 2`, `int(-2.9) = -2`). -/
def pyInt (q : ℚ) : ℤ :=
  if 0 ≤ q then ⌊q⌋ else ⌈q⌉

/-- Python `a // b` on floats: true mathematical floor of the quotient
(the source stores it as an integral float, which `int()` then maps to
the same integer). -/
def pyFloorDiv (a b : ℚ) : ℤ := ⌊a / b⌋

/-! ## CollisionMap (`tmx_explorer/map/collision.py`) -/

/-- Model of `CollisionMap`: dimensions and the flag array `data[z, y, x]`.
The numpy array is represented as a total function; the source only
reads or writes it through the bounds-guarded accessors, which never
index outside `[0,H)×[0,D)×[0,W)`. -/
structure CollisionMap where
  W : ℕ
  H : ℕ
  D : ℕ
  data : ℤ → ℤ → ℤ → ℕ

namespace CollisionMap

/-- Python `_in_bounds(x, y, z)`: `0 <= x < W and 0 <= y < D and 0 <= z < H`. -/
def inBounds (cm : CollisionMap) (x y z : ℤ) : Bool :=
  decide (0 ≤ x ∧ x < (cm.W : ℤ) ∧ 0 ≤ y ∧ y < (cm.D : ℤ) ∧
    0 ≤ z ∧ z < (cm.H : ℤ))

/-- Python `get_flags(x, y, z)`: the stored flags when in bounds, `1` (solid)
otherwise. -/
def getFlags (cm : CollisionMap) (x y z : ℤ) : ℕ :=
  if cm.inBounds x y z then cm.data z y x else 1

/-- Python `is_solid(x, y, z)`: `get_flags(...) != 0`. -/
def isSolid (cm : CollisionMap) (x y z : ℤ) : Bool :=
  cm.getFlags x y z != 0

/-- Python `is_walkable(x, y, z)`: `get_flags(...) == 0`. -/
def isWalkable (cm : CollisionMap) (x y z : ℤ) : Bool :=
  cm.getFlags x y z == 0

/-- Python `pixel_to_tile(px, py, tile_width, tile_height)`:
`(int(px // tile_width), int(py // tile_height))`. -/
def pixelToTile (px py : ℚ) (tileWidth tileHeight : ℕ) : ℤ × ℤ :=
  (pyFloorDiv px (tileWidth : ℚ), pyFloorDiv py (tileHeight : ℚ))

/-- Python `get_z_levels_to_check(z, char_height)`:
`z_floor = int(z)`, `z_ceil = int(z + char_height)`; collect `z_floor`
if `0 <= z_floor < H`, then `z_ceil` if it differs from `z_floor` and
`0 <= z_ceil < H`. -/
def getZLevelsToCheck (cm : CollisionMap) (z charHeight : ℚ) : List ℤ :=
  let zFloor : ℤ := pyInt z
  let zCeil : ℤ := pyInt (z + charHeight)
  let l1 : List ℤ := if 0 ≤ zFloor ∧ zFloor < (cm.H : ℤ) then [zFloor] else []
  let l2 : List ℤ :=
    if zCeil ≠ zFloor ∧ 0 ≤ zCeil ∧ zCeil < (cm.H : ℤ) then [zCeil] else []
  l1 ++ l2

/-- The four footprint corners computed by `can_move_to_with_size`:
`left/right = px ∓/± (char_width * tile_width) / 2`,
`top/bottom = py ∓/± (char_depth * tile_height) / 2`, listed in the
source order (left,top), (right,top), (left,bottom), (right,bottom). -/
def footprintCorners (px py charWidth charDepth : ℚ)
    (tileWidth tileHeight : ℕ) : List (ℚ × ℚ) :=
  let halfWidthPx := charWidth * (tileWidth : ℚ) / 2
  let halfDepthPx := charDepth * (tileHeight : ℚ) / 2
  let left := px - halfWidthPx
  let right := px + halfWidthPx
  let top := py - halfDepthPx
  let bottom := py + halfDepthPx
  [(left, top), (right, top), (left, bottom), (right, bottom)]

/-- Python `can_move_to_with_size(px, py, z, char_width, char_depth,
char_height, tile_width, tile_height)`: `False` as soon as some corner,
converted by `pixel_to_tile`, is solid at some level of
`get_z_levels_to_check(z, char_height)`; `True` otherwise. -/
def canMoveToWithSize (cm : CollisionMap) (px py z : ℚ)
    (charWidth charDepth charHeight : ℚ)
    (tileWidth tileHeight : ℕ) : Bool :=
  let corners := footprintCorners px py charWidth charDepth tileWidth tileHeight
  let zLevels := cm.getZLevelsToCheck z charHeight
  corners.all fun c =>
    let t := pixelToTile c.1 c.2 tileWidth tileHeight
    zLevels.all fun tz => !(cm.isSolid t.1 t.2 tz)

/-- Python `can_change_height(...)`: reject `new_z < 0` or `new_z >= H`, else
delegate to `can_move_to_with_size` at `new_z`. -/
def canChangeHeight (cm : CollisionMap) (px py : ℚ) (currentZ newZ : ℚ)
    (charWidth charDepth charHeight : ℚ)
    (tileWidth tileHeight : ℕ) : Bool :=
  if newZ < 0 then false
  else if (cm.H : ℚ) ≤ newZ then false
  else cm.canMoveToWithSize px py newZ charWidth charDepth charHeight
    tileWidth tileHeight

end CollisionMap

/-! ## Render depth (`tmx_explorer/app.py`, `collect_visible_tiles_ordered`) -/

/-- Constant `base_offset = -1000.0`. -/
def baseOffset : ℚ := -1000

/-- Formula `depth = base_offset + y + z + (n * 0.1)` for a tile at row `y`,
height index `z`, layer index `n` (the float literal `0.1` embedded as
the rational `1/10`). -/
def tileDepth (y z n : ℕ) : ℚ :=
  baseOffset + (y : ℚ) + (z : ℚ) + (n : ℚ) * (1 / 10)

/-! ## Property values (`tmx_manager.py`)

`Property.from_xml` stores `value` as a Python `str`, `int`, `float`
or `bool` depending on the declared type (`color` values stay strings).
The runtime `isinstance` dispatch on `value` is embedded as a sum type. -/

/-- A property value as held at runtime after `Property.from_xml`. -/
inductive PValue where
  | pstr (s : String)
  | pint (n : ℤ)
  | pfloat (q : ℚ)
  | pbool (b : Bool)
  deriving DecidableEq

/-- A custom property: `name`, declared `type`, converted `value`. -/
structure Property where
  name : String
  type : String
  value : PValue
  deriving DecidableEq

/-- Dictionary lookup `properties[name]` (a `dict` keyed by name, so
the first match is the only match). -/
def propLookup (props : List Property) (nm : String) : Option PValue :=
  (props.find? (fun p => p.name == nm)).map (fun p => p.value)

/-! ## Python `int(s, 0)` (used by `_get_layer_level`) -/

/-- Numeric value of a digit character, `16` (out of range for every
supported base) for anything else. -/
def digitVal (c : Char) : ℕ :=
  if c.isDigit then c.toNat - 48
  else if 'a' ≤ c ∧ c ≤ 'f' then c.toNat - 87
  else if 'A' ≤ c ∧ c ≤ 'F' then c.toNat - 55
  else 16

/-- Is `c` a digit of the given base (2, 8, 10 or 16)? -/
def isDigitIn (base : ℕ) (c : Char) : Bool :=
  digitVal c < base

/-- Tail of a digit run: every character a base-digit, underscores
allowed only singly and only when followed by a digit. -/
def digitRunTail (base : ℕ) : List Char → Bool
  | [] => true
  | '_' :: rest =>
    match rest with
    | [] => false
    | c :: _ => isDigitIn base c && digitRunTail base rest
  | c :: rest => isDigitIn base c && digitRunTail base rest

/-- A valid digit run: nonempty, does not start with an underscore,
and satisfies the per-character rules of `digitRunTail`. -/
def digitRunOk (base : ℕ) : List Char → Bool
  | [] => false
  | '_' :: _ => false
  | cs => digitRunTail base cs

/-- Numeric value of a digit run (underscores skipped). -/
def digitsValue (base : ℕ) (cs : List Char) : ℕ :=
  (cs.filter (fun c => c != '_')).foldl (fun a c => a * base + digitVal c) 0

/-- Digits after a `0x`/`0o`/`0b` prefix: CPython additionally allows a
single underscore directly after the prefix. -/
def parsePrefixed (base : ℕ) (cs : List Char) : Option ℕ :=
  let cs2 := match cs with
    | '_' :: rest => rest
    | _ => cs
  if digitRunOk base cs2 then some (digitsValue base cs2) else none

/-- Base-0 decimal digits: leading zeros are rejected unless every
digit is zero (CPython accepts `"0"`, `"00"` but rejects `"010"`). -/
def parseDecBase0 (cs : List Char) : Option ℕ :=
  if digitRunOk 10 cs then
    if cs.head? = some '0' then
      if (cs.filter (fun c => c != '_')).all (fun c => c == '0') then some 0
      else none
    else some (digitsValue 10 cs)
  else none

/-- Surrounding-whitespace strip of `str.strip()`, written directly on
the character list. -/
def stripChars (cs : List Char) : List Char :=
  ((cs.dropWhile Char.isWhitespace).reverse.dropWhile Char.isWhitespace).reverse

/-- Model of Python `int(s, 0)`: strip surrounding whitespace, an
optional single sign, then auto-detect the base from a `0x`/`0o`/`0b`
prefix, defaulting to decimal.  `none` models the `ValueError` raised
on a malformed literal. -/
def pyIntBase0 (s : String) : Option ℤ :=
  let cs := stripChars s.toList
  let signed : ℤ × List Char :=
    match cs with
    | '+' :: rest => (1, rest)
    | '-' :: rest => (-1, rest)
    | _ => (1, cs)
  let core : Option ℕ :=
    match signed.2 with
    | '0' :: 'x' :: rest => parsePrefixed 16 rest
    | '0' :: 'X' :: rest => parsePrefixed 16 rest
    | '0' :: 'o' :: rest => parsePrefixed 8 rest
    | '0' :: 'O' :: rest => parsePrefixed 8 rest
    | '0' :: 'b' :: rest => parsePrefixed 2 rest
    | '0' :: 'B' :: rest => parsePrefixed 2 rest
    | rest => parseDecBase0 rest
  core.map (fun v => signed.1 * (v : ℤ))

/-! ## Layer level extraction (`Map3DStructure._get_layer_level`) -/

/-- The conversion step of `_get_layer_level` applied to the found
property value (or to the default `level = 0` when none was found):
strings go through `int(value, 0)` — whose `ValueError` is embedded as
`Except.error` — floats truncate via `int(value)`, and a `bool` behaves
as the Python `int` it subclasses. -/
def levelOfValue : Option PValue → Except String ℤ
  | none => Except.ok 0
  | some (PValue.pstr s) =>
    match pyIntBase0 s with
    | some n => Except.ok n
    | none => Except.error ("ValueError: invalid literal for int with base 0: " ++ s)
  | some (PValue.pint n) => Except.ok n
  | some (PValue.pfloat q) => Except.ok (pyInt q)
  | some (PValue.pbool b) => Except.ok (if b then 1 else 0)

/-- The `for prop_name in ("Z", "z", "level")` lookup (quotes per the source): value of the
first of those property names present on the layer. -/
def zLevelProp (props : List Property) : Option PValue :=
  (propLookup props "Z").orElse fun _ =>
    (propLookup props "z").orElse fun _ =>
      propLookup props "level"

/-- Python `_get_layer_level(layer)`: look up `Z`/`z`/`level`, default 0,
convert; a malformed string propagates its `ValueError`. -/
def getLayerLevel (props : List Property) : Except String ℤ :=
  levelOfValue (zLevelProp props)

/-! ## Layer tree and extraction (`Map3DStructure._extract_all_layers`) -/

mutual
/-- A node of the TMX layer tree: a `TileLayer` (name, grid dimensions,
properties, row-major GID data), a `LayerGroup` with children, or any
other layer kind (object/image layers, ignored by extraction). -/
inductive Layer where
  | tile (name : String) (width height : ℕ) (props : List Property)
      (gids : List ℕ)
  | group (name : String) (children : LayerList)
  | other (name : String)

/-- A list of layers (spelled out so that the extraction functions are
structurally recursive and reduce definitionally). -/
inductive LayerList where
  | nil
  | cons (l : Layer) (ls : LayerList)
end

/-- Field `layer.name`. -/
def Layer.lname : Layer → String
  | Layer.tile nm _ _ _ _ => nm
  | Layer.group nm _ => nm
  | Layer.other nm => nm

/-- Concatenation of two layer lists. -/
def LayerList.append : LayerList → LayerList → LayerList
  | LayerList.nil, ys => ys
  | LayerList.cons l ls, ys => LayerList.cons l (ls.append ys)

/-- Python `TileLayer.get_tile_gid(x, y)`: bounds-checked row-major lookup,
0 when out of bounds. -/
def getTileGid (width height : ℕ) (gids : List ℕ) (x y : ℕ) : ℕ :=
  if x < width ∧ y < height then gids.getD (y * width + x) 0 else 0

/-- One entry of `layer_info`: `(layer, level, full_name)` with the
grid of the layer kept as dimensions plus GID data. -/
structure LayerEntry where
  qname : String
  level : ℤ
  width : ℕ
  height : ℕ
  gids : List ℕ
  deriving DecidableEq

mutual
/-- Python `process_layer(layer, layer_name)`: a tile layer yields one
`layer_info` entry named `layer_name or layer.name`, with its level
from `_get_layer_level` (whose `ValueError` propagates); a group
recurses over its children; other layer kinds are ignored. -/
def processLayer : Layer → String → Except String (List LayerEntry)
  | Layer.tile nm w h props gs, layerName =>
    match getLayerLevel props with
    | Except.error e => Except.error e
    | Except.ok lvl =>
      Except.ok [{ qname := if layerName = "" then nm else layerName,
                   level := lvl, width := w, height := h, gids := gs }]
  | Layer.group _ children, layerName => processChildren children layerName
  | Layer.other _, _ => Except.ok []

/-- Loop over the children of a group: the `subname` of each child is
`layer_name + "/" + sublayer.name` when the accumulated `layer_name` is
nonempty, else just `sublayer.name` (where `layer_name` is the accumulated name of the group itself —
empty for a top-level group). -/
def processChildren : LayerList → String → Except String (List LayerEntry)
  | LayerList.nil, _ => Except.ok []
  | LayerList.cons sub rest, layerName =>
    let subname := if layerName = "" then sub.lname
                   else layerName ++ "/" ++ sub.lname
    match processLayer sub subname with
    | Except.error e => Except.error e
    | Except.ok es =>
      match processChildren rest layerName with
      | Except.error e => Except.error e
      | Except.ok es2 => Except.ok (es ++ es2)
end

/-- Python `_extract_all_layers`: `for layer in tmx_map.layers:
process_layer(layer)` — every top-level layer starts with the empty
accumulated name. -/
def extractAllLayers : LayerList → Except String (List LayerEntry)
  | LayerList.nil => Except.ok []
  | LayerList.cons l rest =>
    match processLayer l "" with
    | Except.error e => Except.error e
    | Except.ok es =>
      match extractAllLayers rest with
      | Except.error e => Except.error e
      | Except.ok es2 => Except.ok (es ++ es2)

/-- The qualified names produced by extraction, in order. -/
def qualifiedNames (layers : LayerList) : Except String (List String) :=
  (extractAllLayers layers).map (fun es => es.map LayerEntry.qname)

/-! ## Level range and layer loading (`Map3DStructure.__init__`,
`_load_layers`) -/

/-- Python `min(self.levels.keys())` with the `if self.levels else 0` default
(the dict holds the distinct levels; the minimum over distinct levels
equals the minimum over all). -/
def minLevel (es : List LayerEntry) : ℤ :=
  match es.map LayerEntry.level with
  | [] => 0
  | l :: ls => ls.foldl min l

/-- Python `max(self.levels.keys())` with the same default. -/
def maxLevel (es : List LayerEntry) : ℤ :=
  match es.map LayerEntry.level with
  | [] => 0
  | l :: ls => ls.foldl max l

/-- Computation `self.H = self.max_level - self.min_level + 1`. -/
def heightH (es : List LayerEntry) : ℤ :=
  maxLevel es - minLevel es + 1

/-- Computation `self.level_offset = -self.min_level`. -/
def levelOffsetOf (es : List LayerEntry) : ℤ :=
  -(minLevel es)

/-- The state built up by `_load_layers`: the 4D array `mapa` (as a
total function, zero elsewhere) and the parallel `layer_names` /
`layer_levels` lists. -/
structure LoadedLayers where
  mapa : ℤ → ℕ → ℕ → ℕ → ℕ
  layerNames : List String
  layerLevels : List ℤ

/-- The copy loops of `_load_layers` for one layer at height index `z`
and layer index `n`: for `y < min(layer.height, D)` and
`x < min(layer.width, W)`, store `get_tile_gid(x, y)` when positive. -/
def copyLayerGrid (mapa : ℤ → ℕ → ℕ → ℕ → ℕ) (D W : ℕ) (z : ℤ) (n : ℕ)
    (e : LayerEntry) : ℤ → ℕ → ℕ → ℕ → ℕ :=
  fun z2 y x n2 =>
    if z2 = z ∧ n2 = n ∧ y < min e.height D ∧ x < min e.width W ∧
        0 < getTileGid e.width e.height e.gids x y then
      getTileGid e.width e.height e.gids x y
    else mapa z2 y x n2

/-- The `for layer_idx, (layer, level, layer_name) in enumerate(...)`
loop of `_load_layers`: compute `z = level + level_offset`; a layer
with `z` outside `[0, H)` is skipped (`continue`) — its tiles are not
copied and its metadata is not appended — while `layer_idx` still
advances. -/
def loadLayersAux (D W : ℕ) (H off : ℤ) :
    List LayerEntry → ℕ → LoadedLayers → LoadedLayers
  | [], _, acc => acc
  | e :: rest, n, acc =>
    let z := e.level + off
    if 0 ≤ z ∧ z < H then
      loadLayersAux D W H off rest (n + 1)
        { mapa := copyLayerGrid acc.mapa D W z n e,
          layerNames := acc.layerNames ++ [e.qname],
          layerLevels := acc.layerLevels ++ [e.level] }
    else
      loadLayersAux D W H off rest (n + 1) acc

/-- Python `_load_layers`, starting from the zero-initialized `mapa` and empty
metadata lists. -/
def loadLayers (D W : ℕ) (H off : ℤ) (es : List LayerEntry) : LoadedLayers :=
  loadLayersAux D W H off es 0
    { mapa := fun _ _ _ _ => 0, layerNames := [], layerLevels := [] }

/-! ## Collision-map construction (`_build_collision_map`) -/

/-- One tile of a tileset: its local id and its property dict. -/
structure TilesetTile where
  id : ℕ
  props : List Property

/-- A tileset: `firstgid` plus its tiles-with-metadata dict. -/
structure Tileset where
  firstgid : ℕ
  tiles : List TilesetTile

/-- Phase-1 value conversion for the `solid` property of a tile: a `bool` is
used directly, anything else goes through
`str(prop.value).lower() == "true"` (never true for numeric values; quotes per the source). -/
def solidOfValue : PValue → Bool
  | PValue.pbool b => b
  | PValue.pstr s => s.toLower == "true"
  | PValue.pint _ => false
  | PValue.pfloat _ => false

/-- Phase 1 of `_build_collision_map`: the `GID → is_solid` dict, built
by scanning the tiles of every tileset in order (`gid = firstgid + tile_id`;
later writes override earlier ones, as for a Python dict). -/
def solidLookup (tilesets : List Tileset) : ℕ → Option Bool :=
  tilesets.foldl
    (fun acc ts =>
      ts.tiles.foldl
        (fun acc2 t =>
          match propLookup t.props "solid" with
          | some v =>
            fun g => if g = ts.firstgid + t.id then some (solidOfValue v)
                     else acc2 g
          | none => acc2)
        acc)
    (fun _ => none)

/-- The inner `for n in range(self.N)` loop of phase 2 at cell
`(z, y, x)`: some layer `n` has `layer_levels[n] == get_level_value(z)`
(that is, `z - level_offset`) and a nonzero GID there for which
`solid_lookup.get(gid, False)` is true. -/
def cellSolid (N : ℕ) (layerLevels : List ℤ) (off : ℤ)
    (mapa : ℤ → ℕ → ℕ → ℕ → ℕ) (lookup : ℕ → Option Bool)
    (z : ℤ) (y x : ℕ) : Bool :=
  (List.range N).any fun n =>
    decide (layerLevels.getD n 0 = z - off) &&
    (decide (mapa z y x n ≠ 0) && ((lookup (mapa z y x n)).getD false))

/-! ## Map3DStructure assembly (`Map3DStructure.__init__`) -/

/-- The fields of a constructed `Map3DStructure` that the claims are
about. -/
structure Map3DStructure where
  W : ℕ
  D : ℕ
  tileWidth : ℕ
  tileHeight : ℕ
  H : ℤ
  levelOffset : ℤ
  N : ℕ
  mapa : ℤ → ℕ → ℕ → ℕ → ℕ
  layerNames : List String
  layerLevels : List ℤ
  collision : CollisionMap

/-- Python `get_level_value(z)`, equal to `z - self.level_offset`. -/
def Map3DStructure.getLevelValue (m : Map3DStructure) (z : ℤ) : ℤ :=
  z - m.levelOffset

/-- Python `Map3DStructure.__init__` after layer extraction: compute the level
range, load the layers, then build the collision map — phase 2 scans
`z in range(H)`, `y in range(D)`, `x in range(W)` and calls
`set_flags(x, y, z, 1)` (always in bounds there) exactly on the cells
`cellSolid` accepts; all other cells keep their zero initialization. -/
def buildMap3D (W D tw th : ℕ) (es : List LayerEntry)
    (tilesets : List Tileset) : Map3DStructure :=
  let H := heightH es
  let off := levelOffsetOf es
  let N := es.length
  let loaded := loadLayers D W H off es
  let lookup := solidLookup tilesets
  let collData : ℤ → ℤ → ℤ → ℕ := fun z y x =>
    if 0 ≤ z ∧ z < H ∧ 0 ≤ y ∧ y < (D : ℤ) ∧ 0 ≤ x ∧ x < (W : ℤ) ∧
        cellSolid N loaded.layerLevels off loaded.mapa lookup z y.toNat x.toNat
    then 1 else 0
  { W := W, D := D, tileWidth := tw, tileHeight := th,
    H := H, levelOffset := off, N := N,
    mapa := loaded.mapa,
    layerNames := loaded.layerNames,
    layerLevels := loaded.layerLevels,
    collision := { W := W, H := H.toNat, D := D, data := collData } }

/-- The input side of `TiledMap` that `Map3DStructure(tmx_map)` reads:
dimensions, the layer tree, and the tilesets. -/
structure TiledMapIn where
  width : ℕ
  height : ℕ
  tilewidth : ℕ
  tileheight : ℕ
  layers : LayerList
  tilesets : List Tileset

/-- Full `Map3DStructure(tmx_map)` construction: layer extraction (a
`ValueError` from a malformed level property propagates to the caller),
then the pure assembly. -/
def map3DFromTiledMap (tm : TiledMapIn) : Except String Map3DStructure :=
  match extractAllLayers tm.layers with
  | Except.error e => Except.error e
  | Except.ok es =>
    Except.ok (buildMap3D tm.width tm.height tm.tilewidth tm.tileheight
      es tm.tilesets)

/-! ## Specification-side definition for the height-spanning claim -/

/-- Modelled from the spec words for the height-spanning query (for
comparison with `getZLevelsToCheck`): the distinct values among
`{⌊z⌋, ⌊z + entity_height⌋}` — true mathematical floor — that lie in
`[0, H)`. -/
def specZLevelsFloor (H : ℕ) (z entityHeight : ℚ) : List ℤ :=
  let a : ℤ := ⌊z⌋
  let b : ℤ := ⌊z + entityHeight⌋
  (if 0 ≤ a ∧ a < (H : ℤ) then [a] else []) ++
  (if b ≠ a ∧ 0 ≤ b ∧ b < (H : ℤ) then [b] else [])

/-! ## Concrete fixtures for witnesses and counterexamples -/

/-- A 4×4 collision map with a single height level, all cells clear. -/
def cmEmptyH1 : CollisionMap :=
  { W := 4, H := 1, D := 4, data := fun _ _ _ => 0 }

/-- A 4×4 collision map with a single height level, all cells solid. -/
def cmSolidH1 : CollisionMap :=
  { W := 4, H := 1, D := 4, data := fun _ _ _ => 1 }

/-- A 4×4 collision map with two height levels, all cells clear. -/
def cmEmptyH2 : CollisionMap :=
  { W := 4, H := 2, D := 4, data := fun _ _ _ => 0 }

/-- A layer tree with a top-level group `Background` containing the
tile layer `Sky` (the docstring example of `_extract_all_layers`). -/
def bgLayers : LayerList :=
  LayerList.cons
    (Layer.group "Background"
      (LayerList.cons (Layer.tile "Sky" 1 1 [] [7]) LayerList.nil))
    LayerList.nil

/-- A property dict with a `Z` property whose string value is not a
valid integer literal. -/
def badZProps : List Property :=
  [{ name := "Z", type := "string", value := PValue.pstr "abc" }]

/-- A one-layer map whose single tile layer carries the malformed `Z`
property. -/
def tmBad : TiledMapIn :=
  { width := 1, height := 1, tilewidth := 32, tileheight := 32,
    layers := LayerList.cons (Layer.tile "L" 1 1 badZProps [0]) LayerList.nil,
    tilesets := [] }

/-- A 2×2 tile layer at level 0 with GID 7 at position (0, 0). -/
def entWalls : LayerEntry :=
  { qname := "Walls", level := 0, width := 2, height := 2,
    gids := [7, 0, 0, 0] }

/-- A tileset whose first tile (GID 7) carries `solid = true`. -/
def tsSolid : List Tileset :=
  [{ firstgid := 7,
     tiles := [{ id := 0,
                 props := [{ name := "solid", type := "bool",
                             value := PValue.pbool true }] }] }]

/-- A layer entry at level -2. -/
def entLow : LayerEntry :=
  { qname := "Low", level := -2, width := 1, height := 1, gids := [0] }

/-- A layer entry at level 3. -/
def entHigh : LayerEntry :=
  { qname := "High", level := 3, width := 1, height := 1, gids := [0] }

/-! # Theorems for the claims -/

/-- C2: out-of-bounds collision is solid — whenever any component of
`(x, y, z)` lies outside `[0,W) × [0,D) × [0,H)`, `get_flags` returns
1, `is_solid` returns true and `is_walkable` returns false (all three
are total functions, so no exception is possible). -/
theorem c2_out_of_bounds_is_solid (cm : CollisionMap) (x y z : ℤ)
    (h : ¬ (0 ≤ x ∧ x < (cm.W : ℤ) ∧ 0 ≤ y ∧ y < (cm.D : ℤ) ∧
      0 ≤ z ∧ z < (cm.H : ℤ))) :
    cm.getFlags x y z = 1 ∧ cm.isSolid x y z = true ∧
      cm.isWalkable x y z = false := by
  have hb : cm.inBounds x y z = false := by
    simp only [CollisionMap.inBounds, decide_eq_false_iff_not]
    exact h
  refine ⟨?_, ?_, ?_⟩ <;>
    simp [CollisionMap.getFlags, CollisionMap.isSolid,
      CollisionMap.isWalkable, hb]

/-- Witness for C2 at `(x, y, z) = (-1, 0, 0)` on a concrete 4×4×1
map. -/
theorem c2_out_of_bounds_is_solid_witness :
    (¬ ((0 : ℤ) ≤ -1 ∧ (-1 : ℤ) < (cmEmptyH1.W : ℤ) ∧ (0 : ℤ) ≤ 0 ∧
      (0 : ℤ) < (cmEmptyH1.D : ℤ) ∧ (0 : ℤ) ≤ 0 ∧
      (0 : ℤ) < (cmEmptyH1.H : ℤ))) ∧
    (cmEmptyH1.getFlags (-1) 0 0 = 1 ∧
      cmEmptyH1.isSolid (-1) 0 0 = true ∧
      cmEmptyH1.isWalkable (-1) 0 0 = false) :=
  ⟨by decide, c2_out_of_bounds_is_solid cmEmptyH1 (-1) 0 0 (by decide)⟩

/-- C7: `pixel_to_tile` computes the true mathematical floor of
`px / tile_w` and `py / tile_h`; in particular it maps `(-1, -1)` with
32×32 tiles to `(-1, -1)`, whereas truncation toward zero (Python
`int()` of the raw quotient) would give `(0, 0)`. -/
theorem c7_pixel_to_tile_floor :
    (∀ (px py : ℚ) (tw th : ℕ),
      CollisionMap.pixelToTile px py tw th =
        (⌊px / (tw : ℚ)⌋, ⌊py / (th : ℚ)⌋)) ∧
    CollisionMap.pixelToTile (-1) (-1) 32 32 = (-1, -1) ∧
    (pyInt ((-1 : ℚ) / 32), pyInt ((-1 : ℚ) / 32)) = (0, 0) := by
  refine ⟨fun px py tw th => rfl, ?_, ?_⟩
  · have h32 : ((32 : ℕ) : ℚ) = (32 : ℚ) := by norm_num
    simp only [CollisionMap.pixelToTile, pyFloorDiv, h32, Prod.mk.injEq]
    constructor <;> norm_num
  · have hneg : ¬ (0 : ℚ) ≤ (-1 : ℚ) / 32 := by norm_num
    simp only [pyInt, if_neg hneg, Prod.mk.injEq]
    constructor <;> norm_num

/-- C8: render-depth monotonicity — depth strictly increases by a unit
step in `y` and in `z`, stepping the layer index raises it by exactly
`0.1`, and with a layer index below 10 the layer term never overtakes a
full unit of `y` or `z` (depth at `(y, z, n)` stays below depth at
`(y+1, z, m)` and at `(y, z+1, m)` for every layer index `m`). -/
theorem c8_depth_monotonicity (y z n m : ℕ) (hn : n < 10) :
    tileDepth y z n < tileDepth (y + 1) z n ∧
    tileDepth y z n < tileDepth y (z + 1) n ∧
    tileDepth y z (n + 1) = tileDepth y z n + 1 / 10 ∧
    tileDepth y z n < tileDepth (y + 1) z m ∧
    tileDepth y z n < tileDepth y (z + 1) m := by
  have hn10 : (n : ℚ) < 10 := by exact_mod_cast hn
  have hm0 : (0 : ℚ) ≤ (m : ℚ) := Nat.cast_nonneg m
  unfold tileDepth baseOffset
  push_cast
  refine ⟨by linarith, by linarith, by ring, by linarith, by linarith⟩

/-- Witness for C8 at `y = 0`, `z = 0`, `n = 5`, `m = 3`. -/
theorem c8_depth_monotonicity_witness :
    5 < 10 ∧
    (tileDepth 0 0 5 < tileDepth 1 0 5 ∧
     tileDepth 0 0 5 < tileDepth 0 1 5 ∧
     tileDepth 0 0 6 = tileDepth 0 0 5 + 1 / 10 ∧
     tileDepth 0 0 5 < tileDepth 1 0 3 ∧
     tileDepth 0 0 5 < tileDepth 0 1 3) :=
  ⟨by norm_num, c8_depth_monotonicity 0 0 5 3 (by norm_num)⟩

/-- C10: when both `int(z)` and `int(z + char_height)` fall outside
`[0, H)`, `get_z_levels_to_check` returns the empty list, and
`can_move_to_with_size` therefore returns true for every position and
footprint. -/
theorem c10_out_of_range_height_allows_movement (cm : CollisionMap)
    (px py z cw cd ch : ℚ) (tw th : ℕ)
    (h1 : ¬ (0 ≤ pyInt z ∧ pyInt z < (cm.H : ℤ)))
    (h2 : ¬ (0 ≤ pyInt (z + ch) ∧ pyInt (z + ch) < (cm.H : ℤ))) :
    cm.getZLevelsToCheck z ch = [] ∧
    cm.canMoveToWithSize px py z cw cd ch tw th = true := by
  have hzl : cm.getZLevelsToCheck z ch = [] := by
    simp only [CollisionMap.getZLevelsToCheck]
    rw [if_neg h1, if_neg (fun hc => h2 ⟨hc.2.1, hc.2.2⟩)]
    rfl
  refine ⟨hzl, ?_⟩
  simp [CollisionMap.canMoveToWithSize, hzl]

/-- Witness for C10: `z = 5` on a map with a single height level whose
cells are all solid — movement is still allowed. -/
theorem c10_out_of_range_height_allows_movement_witness :
    (¬ (0 ≤ pyInt 5 ∧ pyInt 5 < (cmSolidH1.H : ℤ))) ∧
    (¬ (0 ≤ pyInt (5 + 17/20) ∧ pyInt (5 + 17/20) < (cmSolidH1.H : ℤ))) ∧
    (cmSolidH1.getZLevelsToCheck 5 (17/20) = [] ∧
      cmSolidH1.canMoveToWithSize 16 16 5 (1/2) (1/2) (17/20) 32 32 = true) := by
  have h1 : ¬ (0 ≤ pyInt 5 ∧ pyInt 5 < (cmSolidH1.H : ℤ)) := by
    simp only [pyInt, cmSolidH1]
    norm_num
  have h2 : ¬ (0 ≤ pyInt (5 + 17/20) ∧ pyInt (5 + 17/20) < (cmSolidH1.H : ℤ)) := by
    simp only [pyInt, cmSolidH1]
    norm_num
  exact ⟨h1, h2,
    c10_out_of_range_height_allows_movement cmSolidH1 16 16 5 (1/2) (1/2)
      (17/20) 32 32 h1 h2⟩

/-- C4 counterexample: at `z = -3/2`, `entity_height = 17/20` on a map
with `H = 1`, the code returns `[0]` (Python `int()` truncates
`-0.65` toward zero, giving level 0), while the claimed set — the
distinct valid mathematical floors — is empty; so the claim, which also
asserts every result has 1 or 2 entries, fails. -/
theorem c4_counterexample_trunc_vs_floor :
    cmEmptyH1.getZLevelsToCheck (-3/2) (17/20) = [0] ∧
    specZLevelsFloor cmEmptyH1.H (-3/2) (17/20) = [] ∧
    cmEmptyH1.getZLevelsToCheck (-3/2) (17/20) ≠
      specZLevelsFloor cmEmptyH1.H (-3/2) (17/20) := by
  have hfl : pyInt (-3/2 : ℚ) = -1 := by
    rw [pyInt, if_neg (by norm_num)]
    rw [Int.ceil_eq_iff] <;> norm_num
  have hce : pyInt ((-3/2 : ℚ) + 17/20) = 0 := by
    have h : ((-3/2 : ℚ) + 17/20) = -13/20 := by norm_num
    rw [h, pyInt, if_neg (by norm_num)]
    rw [Int.ceil_eq_iff] <;> norm_num
  have h1 : cmEmptyH1.getZLevelsToCheck (-3/2) (17/20) = [0] := by
    simp only [CollisionMap.getZLevelsToCheck, hfl, hce, cmEmptyH1]
    norm_num
  have h2 : specZLevelsFloor cmEmptyH1.H (-3/2) (17/20) = [] := by
    have ha : (⌊(-3/2 : ℚ)⌋ : ℤ) = -2 := by norm_num
    have hb : (⌊(-3/2 : ℚ) + 17/20⌋ : ℤ) = -1 := by
      have : ((-3/2 : ℚ) + 17/20) = -13/20 := by norm_num
      rw [this]
      norm_num
    simp only [specZLevelsFloor, ha, hb, cmEmptyH1]
    norm_num
  refine ⟨h1, h2, ?_⟩
  rw [h1, h2]
  simp

/-- C4 (amended): `get_z_levels_to_check(z, entity_height)` returns
exactly the distinct values among `{int(z), int(z + entity_height)}` —
Python `int()` truncation toward zero, which agrees with floor for
`z ≥ 0` — that lie in `[0, H)`, so 0, 1 or 2 entries; in particular
`z = 0.5` with `entity_height = 0.85` yields `[0, 1]` and `z = 0.0`
yields `[0]`. -/
theorem c4_z_levels_amended :
    (∀ (cm : CollisionMap) (z ch : ℚ) (lvl : ℤ),
      lvl ∈ cm.getZLevelsToCheck z ch ↔
        ((lvl = pyInt z ∨ lvl = pyInt (z + ch)) ∧
          0 ≤ lvl ∧ lvl < (cm.H : ℤ))) ∧
    (∀ (cm : CollisionMap) (z ch : ℚ),
      (cm.getZLevelsToCheck z ch).Nodup ∧
      (cm.getZLevelsToCheck z ch).length ≤ 2) ∧
    cmEmptyH2.getZLevelsToCheck (1/2) (17/20) = [0, 1] ∧
    cmEmptyH2.getZLevelsToCheck 0 (17/20) = [0] := by
  refine ⟨?_, ?_, ?_, ?_⟩
  · intro cm z ch lvl
    simp only [CollisionMap.getZLevelsToCheck, List.mem_append]
    by_cases h1 : 0 ≤ pyInt z ∧ pyInt z < (cm.H : ℤ) <;>
      by_cases h2 : pyInt (z + ch) ≠ pyInt z ∧ 0 ≤ pyInt (z + ch) ∧
        pyInt (z + ch) < (cm.H : ℤ)
    · rw [if_pos h1, if_pos h2]
      simp only [List.mem_singleton, List.not_mem_nil]
      constructor
      · rintro (rfl | rfl)
        · exact ⟨Or.inl rfl, h1⟩
        · exact ⟨Or.inr rfl, h2.2⟩
      · rintro ⟨(rfl | rfl), hb⟩
        · exact Or.inl rfl
        · exact Or.inr rfl
    · rw [if_pos h1, if_neg h2]
      simp only [List.mem_singleton, List.not_mem_nil, or_false]
      constructor
      · rintro rfl
        exact ⟨Or.inl rfl, h1⟩
      · rintro ⟨(rfl | rfl), hb0, hbH⟩
        · rfl
        · by_cases he : pyInt (z + ch) = pyInt z
          · exact he
          · exact absurd ⟨he, hb0, hbH⟩ h2
    · rw [if_neg h1, if_pos h2]
      simp only [List.mem_singleton, List.not_mem_nil, false_or]
      constructor
      · rintro rfl
        exact ⟨Or.inr rfl, h2.2⟩
      · rintro ⟨(rfl | rfl), hb0, hbH⟩
        · exact absurd ⟨hb0, hbH⟩ h1
        · rfl
    · rw [if_neg h1, if_neg h2]
      simp only [List.not_mem_nil, or_self, false_iff]
      rintro ⟨(rfl | rfl), hb0, hbH⟩
      · exact h1 ⟨hb0, hbH⟩
      · by_cases he : pyInt (z + ch) = pyInt z
        · rw [he] at hb0 hbH
          exact h1 ⟨hb0, hbH⟩
        · exact h2 ⟨he, hb0, hbH⟩
  · intro cm z ch
    simp only [CollisionMap.getZLevelsToCheck]
    by_cases h1 : 0 ≤ pyInt z ∧ pyInt z < (cm.H : ℤ) <;>
      by_cases h2 : pyInt (z + ch) ≠ pyInt z ∧ 0 ≤ pyInt (z + ch) ∧
        pyInt (z + ch) < (cm.H : ℤ)
    · rw [if_pos h1, if_pos h2]
      refine ⟨?_, by simp⟩
      simp only [List.singleton_append, List.nodup_cons, List.mem_singleton,
        List.not_mem_nil, List.nodup_nil, and_true, not_false_iff]
      exact fun hh => h2.1 hh.symm
    · rw [if_pos h1, if_neg h2]
      exact ⟨by simp, by simp⟩
    · rw [if_neg h1, if_pos h2]
      exact ⟨by simp, by simp⟩
    · rw [if_neg h1, if_neg h2]
      exact ⟨by simp, by simp⟩
  · have hfl : pyInt (1/2 : ℚ) = 0 := by
      simp only [pyInt]
      norm_num
    have hce : pyInt ((1/2 : ℚ) + 17/20) = 1 := by
      have : ((1/2 : ℚ) + 17/20) = 27/20 := by norm_num
      rw [this]
      simp only [pyInt]
      norm_num
    simp only [CollisionMap.getZLevelsToCheck, hfl, hce, cmEmptyH2]
    norm_num
  · have hfl : pyInt (0 : ℚ) = 0 := by
      simp only [pyInt]
      norm_num
    have hce : pyInt ((0 : ℚ) + 17/20) = 0 := by
      have : ((0 : ℚ) + 17/20) = 17/20 := by norm_num
      rw [this]
      simp only [pyInt]
      norm_num
    simp only [CollisionMap.getZLevelsToCheck, hfl, hce, cmEmptyH2]
    norm_num

/-- C3: bounding-box movement query — `can_move_to_with_size` returns
false exactly when one of the four footprint corners, converted by
`pixel_to_tile`, is solid at some level of the height-spanning query
(it is a total function, so it never throws); and with
`char_width = char_depth = 0` all corners coincide with `(px, py)`, so
the query degrades to the single-point check. -/
theorem c3_can_move_to_with_size (cm : CollisionMap) (px py z cw cd ch : ℚ)
    (tw th : ℕ) :
    (cm.canMoveToWithSize px py z cw cd ch tw th = false ↔
      ∃ c ∈ CollisionMap.footprintCorners px py cw cd tw th,
        ∃ lvl ∈ cm.getZLevelsToCheck z ch,
          cm.isSolid (CollisionMap.pixelToTile c.1 c.2 tw th).1
            (CollisionMap.pixelToTile c.1 c.2 tw th).2 lvl = true) ∧
    cm.canMoveToWithSize px py z 0 0 ch tw th =
      ((cm.getZLevelsToCheck z ch).all fun tz =>
        !(cm.isSolid (CollisionMap.pixelToTile px py tw th).1
          (CollisionMap.pixelToTile px py tw th).2 tz)) := by
  constructor
  · rw [Bool.eq_false_iff]
    simp [CollisionMap.canMoveToWithSize, List.all_eq_true]
  · simp only [CollisionMap.canMoveToWithSize, CollisionMap.footprintCorners,
      zero_mul, zero_div, sub_zero, add_zero, List.all_cons, List.all_nil,
      Bool.and_true, Bool.and_self]

/-! ## Shared helper lemmas -/

/-- A left fold of `min` never exceeds its initial value. -/
theorem foldl_min_le_init (ls : List ℤ) (a : ℤ) : ls.foldl min a ≤ a := by
  induction ls generalizing a with
  | nil => exact le_refl a
  | cons b ls ih => exact le_trans (ih (min a b)) (min_le_left a b)

/-- A left fold of `min` never exceeds any list member. -/
theorem foldl_min_le_mem {b : ℤ} {ls : List ℤ} (h : b ∈ ls) (a : ℤ) :
    ls.foldl min a ≤ b := by
  induction ls generalizing a with
  | nil => cases h
  | cons c ls ih =>
    rcases List.mem_cons.mp h with rfl | h2
    · exact le_trans (foldl_min_le_init ls (min a b)) (min_le_right a b)
    · exact ih h2 (min a c)

/-- A left fold of `max` is at least its initial value. -/
theorem le_foldl_max_init (ls : List ℤ) (a : ℤ) : a ≤ ls.foldl max a := by
  induction ls generalizing a with
  | nil => exact le_refl a
  | cons b ls ih => exact le_trans (le_max_left a b) (ih (max a b))

/-- A left fold of `max` is at least any list member. -/
theorem le_foldl_max_mem {b : ℤ} {ls : List ℤ} (h : b ∈ ls) (a : ℤ) :
    b ≤ ls.foldl max a := by
  induction ls generalizing a with
  | nil => cases h
  | cons c ls ih =>
    rcases List.mem_cons.mp h with rfl | h2
    · exact le_trans (le_max_right a b) (le_foldl_max_init ls (max a b))
    · exact ih h2 (max a c)

/-- Every stored layer level is at least `minLevel`. -/
theorem minLevel_le {es : List LayerEntry} {e : LayerEntry} (h : e ∈ es) :
    minLevel es ≤ e.level := by
  cases es with
  | nil => cases h
  | cons e0 rest =>
    rcases List.mem_cons.mp h with rfl | h2
    · exact foldl_min_le_init _ _
    · exact foldl_min_le_mem (List.mem_map_of_mem LayerEntry.level h2) _

/-- Every stored layer level is at most `maxLevel`. -/
theorem le_maxLevel {es : List LayerEntry} {e : LayerEntry} (h : e ∈ es) :
    e.level ≤ maxLevel es := by
  cases es with
  | nil => cases h
  | cons e0 rest =>
    rcases List.mem_cons.mp h with rfl | h2
    · exact le_foldl_max_init _ _
    · exact le_foldl_max_mem (List.mem_map_of_mem LayerEntry.level h2) _

/-- When every entry passes the range guard, `loadLayersAux` appends
one name and one level per entry. -/
theorem loadLayersAux_lengths (D W : ℕ) (H off : ℤ) (es : List LayerEntry) :
    ∀ (n : ℕ) (acc : LoadedLayers),
      (∀ e ∈ es, 0 ≤ e.level + off ∧ e.level + off < H) →
      (loadLayersAux D W H off es n acc).layerNames.length =
        acc.layerNames.length + es.length ∧
      (loadLayersAux D W H off es n acc).layerLevels.length =
        acc.layerLevels.length + es.length := by
  induction es with
  | nil => intro n acc _; simp [loadLayersAux]
  | cons e rest ih =>
    intro n acc h
    have he := h e (List.mem_cons_self e rest)
    rw [loadLayersAux, if_pos he]
    have hrec := ih (n + 1)
      { mapa := copyLayerGrid acc.mapa D W (e.level + off) n e,
        layerNames := acc.layerNames ++ [e.qname],
        layerLevels := acc.layerLevels ++ [e.level] }
      (fun e2 h2 => h e2 (List.mem_cons_of_mem _ h2))
    simp only [List.length_append, List.length_cons, List.length_nil]
      at hrec ⊢
    omega

/-- C9: the defensive out-of-range guard of `_load_layers` is
unreachable — every extracted layer level, shifted by the level offset
derived from the same data, lands in `[0, H)`, and consequently
`_load_layers` stores every entry: `layer_names` and `layer_levels`
both end up with exactly one entry per extracted layer. -/
theorem c9_out_of_range_guard_unreachable (es : List LayerEntry) (D W : ℕ) :
    (∀ e ∈ es, 0 ≤ e.level + levelOffsetOf es ∧
      e.level + levelOffsetOf es < heightH es) ∧
    (loadLayers D W (heightH es) (levelOffsetOf es) es).layerNames.length =
      es.length ∧
    (loadLayers D W (heightH es) (levelOffsetOf es) es).layerLevels.length =
      es.length := by
  have hrange : ∀ e ∈ es, 0 ≤ e.level + levelOffsetOf es ∧
      e.level + levelOffsetOf es < heightH es := by
    intro e he
    have h1 := minLevel_le he
    have h2 := le_maxLevel he
    unfold levelOffsetOf heightH
    constructor <;> linarith
  have hlen := loadLayersAux_lengths D W (heightH es) (levelOffsetOf es) es 0
    { mapa := fun _ _ _ _ => 0, layerNames := [], layerLevels := [] } hrange
  simp only [List.length_nil, Nat.zero_add] at hlen
  exact ⟨hrange, hlen.1, hlen.2⟩

/-- Witness for C9 on a two-layer list with levels -2 and 3
(`H = 6`, `level_offset = 2`). -/
theorem c9_out_of_range_guard_unreachable_witness :
    (0 ≤ entLow.level + levelOffsetOf [entLow, entHigh] ∧
      entLow.level + levelOffsetOf [entLow, entHigh] <
        heightH [entLow, entHigh]) ∧
    (loadLayers 1 1 (heightH [entLow, entHigh]) (levelOffsetOf [entLow, entHigh])
      [entLow, entHigh]).layerNames.length = 2 ∧
    (loadLayers 1 1 (heightH [entLow, entHigh]) (levelOffsetOf [entLow, entHigh])
      [entLow, entHigh]).layerLevels.length = 2 :=
  ⟨(c9_out_of_range_guard_unreachable [entLow, entHigh] 1 1).1 entLow
      (List.mem_cons_self entLow [entHigh]),
    (c9_out_of_range_guard_unreachable [entLow, entHigh] 1 1).2.1,
    (c9_out_of_range_guard_unreachable [entLow, entHigh] 1 1).2.2⟩

/-- Bool-option lookup with default false succeeds exactly on
`some true` (the Python `dict.get(gid, False)` idiom). -/
theorem option_getD_false_eq_true_iff (o : Option Bool) :
    o.getD false = true ↔ o = some true := by
  cases o <;> simp

/-- Characterization of the phase-2 inner loop `cellSolid`. -/
theorem cellSolid_eq_true_iff (N : ℕ) (lv : List ℤ) (off : ℤ)
    (mapa : ℤ → ℕ → ℕ → ℕ → ℕ) (lookup : ℕ → Option Bool) (z : ℤ) (y x : ℕ) :
    cellSolid N lv off mapa lookup z y x = true ↔
      ∃ n, n < N ∧ lv.getD n 0 = z - off ∧ mapa z y x n ≠ 0 ∧
        lookup (mapa z y x n) = some true := by
  simp only [cellSolid, List.any_eq_true, List.mem_range, Bool.and_eq_true,
    decide_eq_true_eq, option_getD_false_eq_true_iff]

/-- C1: collision-map construction — in a `Map3DStructure` built from
layer entries and tilesets, an in-bounds cell `(x, y, z)` carries flag
1 exactly when some layer index `n` has `layer_levels[n]` equal to
`get_level_value(z)` and stores a nonzero GID at `mapa[z, y, x, n]`
that the tileset solid-property lookup maps to `some true`; in
particular a GID absent from the lookup never makes a cell solid. -/
theorem c1_collision_map_construction (W D tw th : ℕ) (es : List LayerEntry)
    (tilesets : List Tileset) (x y : ℕ) (z : ℤ)
    (hx : x < W) (hy : y < D) (hz0 : 0 ≤ z) (hzH : z < heightH es) :
    (buildMap3D W D tw th es tilesets).collision.getFlags x y z = 1 ↔
      ∃ n, n < (buildMap3D W D tw th es tilesets).N ∧
        (buildMap3D W D tw th es tilesets).layerLevels.getD n 0 =
          (buildMap3D W D tw th es tilesets).getLevelValue z ∧
        (buildMap3D W D tw th es tilesets).mapa z y x n ≠ 0 ∧
        solidLookup tilesets
          ((buildMap3D W D tw th es tilesets).mapa z y x n) = some true := by
  have hHpos : (0 : ℤ) < heightH es := lt_of_le_of_lt hz0 hzH
  have hxz : (0 : ℤ) ≤ (x : ℤ) := Int.natCast_nonneg x
  have hyz : (0 : ℤ) ≤ (y : ℤ) := Int.natCast_nonneg y
  have hxW : (x : ℤ) < (W : ℤ) := by exact_mod_cast hx
  have hyD : (y : ℤ) < (D : ℤ) := by exact_mod_cast hy
  have hin : (buildMap3D W D tw th es tilesets).collision.inBounds x y z
      = true := by
    simp only [buildMap3D, CollisionMap.inBounds, decide_eq_true_eq]
    refine ⟨hxz, hxW, hyz, hyD, hz0, ?_⟩
    rw [Int.toNat_of_nonneg (le_of_lt hHpos)]
    exact hzH
  have hflags : (buildMap3D W D tw th es tilesets).collision.getFlags x y z =
      (buildMap3D W D tw th es tilesets).collision.data z y x := by
    rw [CollisionMap.getFlags, if_pos hin]
  have hdata : (buildMap3D W D tw th es tilesets).collision.data z y x =
      if cellSolid es.length
          (loadLayers D W (heightH es) (levelOffsetOf es) es).layerLevels
          (levelOffsetOf es)
          (loadLayers D W (heightH es) (levelOffsetOf es) es).mapa
          (solidLookup tilesets) z y x
      then 1 else 0 := by
    show (if 0 ≤ z ∧ z < heightH es ∧ 0 ≤ (y : ℤ) ∧ (y : ℤ) < (D : ℤ) ∧
        0 ≤ (x : ℤ) ∧ (x : ℤ) < (W : ℤ) ∧
        cellSolid es.length
          (loadLayers D W (heightH es) (levelOffsetOf es) es).layerLevels
          (levelOffsetOf es)
          (loadLayers D W (heightH es) (levelOffsetOf es) es).mapa
          (solidLookup tilesets) z ((y : ℤ)).toNat ((x : ℤ)).toNat
      then 1 else 0) = _
    rw [Int.toNat_natCast, Int.toNat_natCast]
    by_cases hc : cellSolid es.length
        (loadLayers D W (heightH es) (levelOffsetOf es) es).layerLevels
        (levelOffsetOf es)
        (loadLayers D W (heightH es) (levelOffsetOf es) es).mapa
        (solidLookup tilesets) z y x
    · rw [if_pos ⟨hz0, hzH, hyz, hyD, hxz, hxW, hc⟩, if_pos hc]
    · rw [if_neg (fun hh => hc hh.2.2.2.2.2.2), if_neg hc]
  rw [hflags, hdata]
  by_cases hc : cellSolid es.length
      (loadLayers D W (heightH es) (levelOffsetOf es) es).layerLevels
      (levelOffsetOf es)
      (loadLayers D W (heightH es) (levelOffsetOf es) es).mapa
      (solidLookup tilesets) z y x
  · rw [if_pos hc]
    simp only [true_iff]
    exact (cellSolid_eq_true_iff _ _ _ _ _ _ _ _).mp hc
  · rw [if_neg hc]
    simp only [Nat.zero_ne_one, false_iff]
    intro hex
    exact hc ((cellSolid_eq_true_iff _ _ _ _ _ _ _ _).mpr hex)

/-- Witness for C1 on a concrete 2×2 one-level map: the layer stores
GID 7 at `(0, 0)` and the tileset marks GID 7 as solid, so the cell
`(0, 0, 0)` carries flag 1. -/
theorem c1_collision_map_construction_witness :
    0 < 2 ∧ (0 : ℤ) ≤ 0 ∧ (0 : ℤ) < heightH [entWalls] ∧
    ((buildMap3D 2 2 32 32 [entWalls] tsSolid).collision.getFlags 0 0 0 = 1 ↔
      ∃ n, n < (buildMap3D 2 2 32 32 [entWalls] tsSolid).N ∧
        (buildMap3D 2 2 32 32 [entWalls] tsSolid).layerLevels.getD n 0 =
          (buildMap3D 2 2 32 32 [entWalls] tsSolid).getLevelValue 0 ∧
        (buildMap3D 2 2 32 32 [entWalls] tsSolid).mapa 0 0 0 n ≠ 0 ∧
        solidLookup tsSolid
          ((buildMap3D 2 2 32 32 [entWalls] tsSolid).mapa 0 0 0 n) =
            some true) :=
  ⟨by decide, by decide, by decide,
    c1_collision_map_construction 2 2 32 32 [entWalls] tsSolid 0 0 0
      (by decide) (by decide) (by decide) (by decide)⟩

/-- When a top-level layer fails `process_layer`, the whole extraction
fails, wherever the failing layer sits in the list. -/
theorem extractAllLayers_append_error :
    ∀ (pre post : LayerList) (bad : Layer) (e : String),
      processLayer bad "" = Except.error e →
      ∃ e2, extractAllLayers (pre.append (LayerList.cons bad post)) =
        Except.error e2
  | LayerList.nil, post, bad, e, hbad =>
    ⟨e, by rw [LayerList.append, extractAllLayers, hbad]⟩
  | LayerList.cons l ls, post, bad, e, hbad => by
    obtain ⟨e2, h2⟩ := extractAllLayers_append_error ls post bad e hbad
    rw [LayerList.append, extractAllLayers]
    cases hpl : processLayer l "" with
    | error e3 => exact ⟨e3, rfl⟩
    | ok es0 =>
      rw [h2]
      exact ⟨e2, rfl⟩

/-- C5: malformed level property — when the `Z`/`z`/`level` property of
a layer is a string that `int(value, 0)` cannot parse, level extraction
fails with the `ValueError` (the parse error the spec calls
`PropertyParseError`), and that failure propagates through layer
extraction to the caller of `Map3DStructure` construction; when none of
the three property names is present, extraction succeeds with the
default level 0. -/
theorem c5_malformed_level_property (props : List Property) (s : String)
    (hfind : zLevelProp props = some (PValue.pstr s))
    (hbad : pyIntBase0 s = none) :
    getLayerLevel props =
      Except.error ("ValueError: invalid literal for int with base 0: " ++ s) ∧
    (∀ (pre post : LayerList) (nm : String) (w h : ℕ) (gs : List ℕ)
        (tm : TiledMapIn),
      tm.layers = pre.append
        (LayerList.cons (Layer.tile nm w h props gs) post) →
      ∃ e, map3DFromTiledMap tm = Except.error e) ∧
    (∀ props2 : List Property, zLevelProp props2 = none →
      getLayerLevel props2 = Except.ok 0) := by
  have hlvl : getLayerLevel props =
      Except.error ("ValueError: invalid literal for int with base 0: " ++ s) := by
    rw [getLayerLevel, hfind, levelOfValue, hbad]
  refine ⟨hlvl, ?_, ?_⟩
  · intro pre post nm w h gs tm htm
    have hb : processLayer (Layer.tile nm w h props gs) "" =
        Except.error ("ValueError: invalid literal for int with base 0: " ++ s) := by
      rw [processLayer, hlvl]
    obtain ⟨e2, h2⟩ := extractAllLayers_append_error pre post _ _ hb
    refine ⟨e2, ?_⟩
    rw [map3DFromTiledMap, htm, h2]
  · intro props2 h0
    rw [getLayerLevel, h0, levelOfValue]

/-- Witness for C5: the property list `badZProps` carries
`Z = "abc"`, which fails to parse; the one-layer map `tmBad` carrying
it fails to construct. -/
theorem c5_malformed_level_property_witness :
    zLevelProp badZProps = some (PValue.pstr "abc") ∧
    pyIntBase0 "abc" = none ∧
    getLayerLevel badZProps =
      Except.error ("ValueError: invalid literal for int with base 0: " ++ "abc") ∧
    (∃ e, map3DFromTiledMap tmBad = Except.error e) := by
  have h1 : zLevelProp badZProps = some (PValue.pstr "abc") := rfl
  have h2 : pyIntBase0 "abc" = none := by decide
  refine ⟨h1, h2, (c5_malformed_level_property badZProps "abc" h1 h2).1, ?_⟩
  exact (c5_malformed_level_property badZProps "abc" h1 h2).2.1
    LayerList.nil LayerList.nil "L" 1 1 [0] tmBad rfl

/-- C6: qualified layer names — the code drops the name of a top-level
layer group: for the tree `Background` (top-level group) containing the
tile layer `Sky`, extraction produces the qualified name `"Sky"`,
not `"Background/Sky"` as both the claim and the docstring of
`_extract_all_layers` state. -/
theorem c6_top_level_group_name_dropped :
    qualifiedNames bgLayers = Except.ok ["Sky"] ∧
    "Sky" ≠ "Background/Sky" :=
  ⟨rfl, by decide⟩

end PyTmx
